import Mathlib

/-!
Verification of the MasterHand vision gesture pipeline
(`src/vision/main.py`) against its natural-language specification.

The embedding models coordinates as rationals and translates the pure
per-frame computation of the main loop: the fold/openness classifier
`get_gesture`, the pinch detector, the velocity-gated snap state machine
keyed by hand label, and the per-frame orchestration that builds the
emitted payload.
-/

namespace MasterHand

/-- A hand landmark: one tracked joint point, normalized (x, y, z). -/
structure Landmark where
  x : ℚ
  y : ℚ
  z : ℚ
deriving DecidableEq

/-- The 21 landmarks of one observed hand, indexed 0..20
(0 = wrist, 4 = thumb tip, 8/12/16/20 = fingertips, 5/9/13/17 = MCP joints). -/
abbrev Landmarks := Fin 21 → Landmark

/-- Squared Euclidean distance between two landmarks, the expression
`(a.x - b.x)**2 + (a.y - b.y)**2 + (a.z - b.z)**2` used throughout the source. -/
def distSq (a b : Landmark) : ℚ :=
  (a.x - b.x) ^ 2 + (a.y - b.y) ^ 2 + (a.z - b.z) ^ 2

/-- The zipped tip/MCP index pairs `zip([8, 12, 16, 20], [5, 9, 13, 17])`
iterated by `get_gesture`. -/
def fingerPairs : List (Fin 21 × Fin 21) :=
  [(8, 5), (12, 9), (16, 13), (20, 17)]

/-- The `folded_count` accumulated by the loop in `get_gesture`: the number of
tip/MCP pairs whose tip is strictly closer (in squared distance) to the wrist
(landmark 0) than the MCP joint is. -/
def foldedCount (landmarks : Landmarks) : Nat :=
  fingerPairs.countP fun p =>
    decide (distSq (landmarks p.1) (landmarks 0) < distSq (landmarks p.2) (landmarks 0))

/-- `get_gesture` from the source: `"Fist"` when `folded_count >= 3`,
`"Open"` when `folded_count == 0`, `"Neutral"` otherwise. -/
def get_gesture (landmarks : Landmarks) : String :=
  if 3 ≤ foldedCount landmarks then "Fist"
  else if foldedCount landmarks = 0 then "Open"
  else "Neutral"

/-- One hand observation delivered by the ingest boundary: a handedness label
and 21 landmarks. -/
structure HandObs where
  label : String
  landmarks : Landmarks

/-- The persistent per-hand-label state: the global dicts `pinch_state` and
`prev_middle_y` of the source, as partial maps from label. -/
@[ext]
structure State where
  pinch_state : String → Option Bool
  prev_middle_y : String → Option ℚ

/-- The process-start state: `pinch_state = {'Right': False, 'Left': False}` and
`prev_middle_y = {'Right': 0.0, 'Left': 0.0}`; any other key is absent. -/
def initState : State where
  pinch_state := fun l => if l = "Right" ∨ l = "Left" then some false else none
  prev_middle_y := fun l => if l = "Right" ∨ l = "Left" then some 0 else none

/-- The squared pinch threshold `threshold_sq = 0.004` of the source. -/
def threshold_sq : ℚ := 0.004

/-- The velocity gate `velocity_threshold = 0.04` of the source. -/
def velocity_threshold : ℚ := 0.04

/-- The per-frame pinch boolean as a function of the squared thumb/middle
distance: `dist_sq < threshold_sq`. -/
def pinchOfDistSq (dist_sq : ℚ) : Bool :=
  decide (dist_sq < threshold_sq)

/-- The `is_pinching` flag computed for one observed hand: squared distance
between thumb tip (landmark 4) and middle fingertip (landmark 12), compared
strictly against `threshold_sq`. -/
def isPinchingObs (h : HandObs) : Bool :=
  pinchOfDistSq (distSq (h.landmarks 4) (h.landmarks 12))

/-- The middle fingertip y-coordinate `current_y = mi.y` of one observed hand. -/
def middleY (h : HandObs) : ℚ :=
  (h.landmarks 12).y

/-- The per-hand body of the main loop: computes `is_pinching`, the velocity
of the middle fingertip against `prev_middle_y.get(handedness, current_y)`,
fires a snap when the persisted pinch state was true, the current frame is not
pinching, and the velocity strictly exceeds the gate, and then unconditionally
writes back `pinch_state[label] = is_pinching`,
`prev_middle_y[label] = current_y`. Returns (snap fired for this hand,
updated state). -/
def processHand (st : State) (h : HandObs) : Bool × State :=
  let is_pinching : Bool := isPinchingObs h
  let current_y : ℚ := middleY h
  let velocity : ℚ := |current_y - (st.prev_middle_y h.label).getD current_y|
  let fire : Bool :=
    (st.pinch_state h.label).getD false && !is_pinching &&
      decide (velocity > velocity_threshold)
  (fire,
    { pinch_state := fun l => if l = h.label then some is_pinching else st.pinch_state l
      prev_middle_y := fun l => if l = h.label then some current_y else st.prev_middle_y l })

/-- One entry of `hand_data_list`: label, the 21 landmarks, and the gesture
string from `get_gesture`. -/
structure HandRecord where
  label : String
  landmarks : Landmarks
  gesture : String

/-- The JSON payload sent to the sink when at least one hand was observed. -/
structure Payload where
  hands : List HandRecord
  snap : Bool

/-- The `for hand_landmarks in results.multi_hand_landmarks` loop: builds
`hand_data_list`, ORs every hand's snap result into `snap_detected`, and
threads the persistent state through `processHand` in observation order. -/
def loopHands (st : State) : List HandObs → List HandRecord × Bool × State
  | [] => ([], false, st)
  | h :: rest =>
    let r : HandRecord := ⟨h.label, h.landmarks, get_gesture h.landmarks⟩
    let (fire, st1) := processHand st h
    let (recs, snap, st2) := loopHands st1 rest
    (r :: recs, fire || snap, st2)

/-- One full frame of the main loop: runs the hand loop, then emits the payload
only when `hand_data_list` is nonempty (`if hand_data_list:`). Returns the
payload delivered to the sink this frame (if any) and the persistent state
after the frame. -/
def processFrame (st : State) (hands : List HandObs) : Option Payload × State :=
  let (recs, snap, st1) := loopHands st hands
  (if recs.isEmpty then none else some ⟨recs, snap⟩, st1)

/-- The individual per-hand snap results of one frame, in observation order,
each computed against the state as already updated by the preceding hands. -/
def firesList (st : State) : List HandObs → List Bool
  | [] => []
  | h :: rest => (processHand st h).1 :: firesList (processHand st h).2 rest

/-- State evolution across a flat sequence of hand observations. -/
def runHands (st : State) : List HandObs → State
  | [] => st
  | h :: rest => runHands (processHand st h).2 rest

/-- State evolution across a sequence of frames. -/
def runFrames (st : State) : List (List HandObs) → State
  | [] => st
  | f :: rest => runFrames (processFrame st f).2 rest

/-- Modelled from the spec: the edge-triggered snap policy (variant A of the
snap event detector) is described in the specification but absent from
`src/vision/main.py`, which implements only the velocity-gated policy. Its
state holds only `is_pinching`; a snap fires on the transition
not-pinching → pinching, with no velocity check; the state is updated to the
current pinch boolean unconditionally every frame. -/
def edgeStep (st : Bool) (pinch : Bool) : Bool × Bool :=
  (!st && pinch, pinch)

/-- The per-frame snap results of the edge-triggered policy over a sequence of
pinch booleans, starting from pinch state `st`. -/
def edgeRun (st : Bool) : List Bool → List Bool
  | [] => []
  | p :: rest => (edgeStep st p).1 :: edgeRun (edgeStep st p).2 rest

/-! ### Concrete example inputs used by witnesses -/

/-- A hand whose thumb tip and middle fingertip are far apart (not pinching)
and whose middle fingertip sits at y = 0.09. -/
def exHandRelease : HandObs :=
  ⟨"Left", fun i => if i = 12 then ⟨0, 9/100, 0⟩ else ⟨1, 0, 0⟩⟩

/-- A state in which every label is recorded as pinching with previous
middle-fingertip y-coordinate 0. -/
def exStatePinched : State :=
  ⟨fun _ => some true, fun _ => some 0⟩

/-- A state in which no label has any recorded entry. -/
def exStateEmpty : State :=
  ⟨fun _ => none, fun _ => none⟩

/-- A hand labelled "Right" with all landmarks at the origin, hence pinching
(zero thumb/middle distance) and unable to fire a snap. -/
def exHandRight : HandObs :=
  ⟨"Right", fun _ => ⟨0, 0, 0⟩⟩

/-- A quarter-turn rotation of the x-y plane, a concrete rigid rotation. -/
def exRot : Landmark → Landmark :=
  fun p => ⟨-p.y, p.x, p.z⟩

/-- The state with label `l` present with the process-start defaults
`is_pinching = false`, `prev_middle_tip_y = 0.0`. -/
def withDefaults (st : State) (l : String) : State where
  pinch_state := fun l2 => if l2 = l then some false else st.pinch_state l2
  prev_middle_y := fun l2 => if l2 = l then some 0 else st.prev_middle_y l2

/-! ### Helper lemmas -/

/-- Unfolding lemma for the snap-fired component of `processHand`. -/
lemma processHand_fire (st : State) (h : HandObs) :
    (processHand st h).1 =
      ((st.pinch_state h.label).getD false && !(isPinchingObs h) &&
        decide (|middleY h - (st.prev_middle_y h.label).getD (middleY h)| >
          velocity_threshold)) := rfl

/-- Unfolding lemma for the pinch-state component of the updated state. -/
lemma processHand_pinch_state (st : State) (h : HandObs) (l : String) :
    ((processHand st h).2).pinch_state l =
      if l = h.label then some (isPinchingObs h) else st.pinch_state l := rfl

/-- Unfolding lemma for the previous-y component of the updated state. -/
lemma processHand_prev_middle_y (st : State) (h : HandObs) (l : String) :
    ((processHand st h).2).prev_middle_y l =
      if l = h.label then some (middleY h) else st.prev_middle_y l := rfl

/-- If a label's persisted pinch flag does not read as true, `processHand`
never fires for a hand carrying that label. -/
lemma processHand_fire_false (st : State) (h : HandObs)
    (hp : (st.pinch_state h.label).getD false = false) :
    (processHand st h).1 = false := by
  rw [processHand_fire, hp, Bool.false_and, Bool.false_and]

/-- `processHand` leaves every other label's persisted state untouched. -/
lemma processHand_preserves (st : State) (h : HandObs) (l : String)
    (hne : h.label ≠ l) :
    ((processHand st h).2).pinch_state l = st.pinch_state l ∧
      ((processHand st h).2).prev_middle_y l = st.prev_middle_y l := by
  rw [processHand_pinch_state, processHand_prev_middle_y]
  have hne' : ¬(l = h.label) := fun hl => hne hl.symm
  rw [if_neg hne', if_neg hne']
  exact ⟨rfl, rfl⟩

/-- `runHands` over observations that all carry other labels leaves a label's
persisted state untouched. -/
lemma runHands_preserves (l : String) :
    ∀ (obs : List HandObs) (st : State), (∀ o ∈ obs, o.label ≠ l) →
      (runHands st obs).pinch_state l = st.pinch_state l ∧
        (runHands st obs).prev_middle_y l = st.prev_middle_y l := by
  intro obs
  induction obs with
  | nil => intro st _; exact ⟨rfl, rfl⟩
  | cons o rest ih =>
    intro st hno
    have ho : o.label ≠ l := hno o (List.mem_cons_self o rest)
    have hrest : ∀ o' ∈ rest, o'.label ≠ l :=
      fun o' hm => hno o' (List.mem_cons_of_mem o hm)
    have hstep := processHand_preserves st o l ho
    have := ih (processHand st o).2 hrest
    exact ⟨this.1.trans hstep.1, this.2.trans hstep.2⟩

/-- The state threaded through the hand loop is exactly `runHands`. -/
lemma loopHands_state (st : State) :
    ∀ hs : List HandObs, (loopHands st hs).2.2 = runHands st hs := by
  intro hs
  induction hs generalizing st with
  | nil => rfl
  | cons h rest ih => exact ih (processHand st h).2

/-- The state after a frame is exactly `runHands` over its observations. -/
lemma processFrame_state (st : State) (hs : List HandObs) :
    (processFrame st hs).2 = runHands st hs :=
  loopHands_state st hs

/-- The snap flag accumulated by the hand loop is the OR of the individual
per-hand snap results. -/
lemma loopHands_snap (st : State) :
    ∀ hs : List HandObs, (loopHands st hs).2.1 = (firesList st hs).any id := by
  intro hs
  induction hs generalizing st with
  | nil => rfl
  | cons h rest ih =>
    show ((processHand st h).1 || (loopHands (processHand st h).2 rest).2.1) = _
    rw [ih (processHand st h).2]
    rfl

/-- `runFrames` over frames that never observe a label leaves that label's
persisted pinch flag and previous-y untouched. -/
lemma runFrames_preserves (l : String) :
    ∀ (frames : List (List HandObs)) (st : State),
      (∀ f ∈ frames, ∀ o ∈ f, o.label ≠ l) →
      (runFrames st frames).pinch_state l = st.pinch_state l ∧
        (runFrames st frames).prev_middle_y l = st.prev_middle_y l := by
  intro frames
  induction frames with
  | nil => intro st _; exact ⟨rfl, rfl⟩
  | cons f rest ih =>
    intro st hno
    have hf : ∀ o ∈ f, o.label ≠ l := hno f (List.mem_cons_self f rest)
    have hrest : ∀ f' ∈ rest, ∀ o ∈ f', o.label ≠ l :=
      fun f' hm => hno f' (List.mem_cons_of_mem f hm)
    have hstep := runHands_preserves l f st hf
    have h1 : (processFrame st f).2.pinch_state l = st.pinch_state l := by
      rw [processFrame_state]; exact hstep.1
    have h2 : (processFrame st f).2.prev_middle_y l = st.prev_middle_y l := by
      rw [processFrame_state]; exact hstep.2
    have := ih (processFrame st f).2 hrest
    exact ⟨this.1.trans h1, this.2.trans h2⟩

/-! ### Claim theorems -/

/-- C1: for a hand whose label has persisted state (pinch flag `pb`, previous
middle-fingertip y `py`), the velocity-gated snap detector fires exactly when
`pb` was pinching, the current frame's pinch boolean is not pinching, and the
absolute change of the middle fingertip's y-coordinate since the previous
observation strictly exceeds 0.04. -/
theorem C1_velocity_gated_snap (st : State) (h : HandObs) (pb : Bool) (py : ℚ)
    (hp : st.pinch_state h.label = some pb) (hy : st.prev_middle_y h.label = some py) :
    (processHand st h).1 = true ↔
      (pb = true ∧ isPinchingObs h = false ∧ |middleY h - py| > (0.04 : ℚ)) := by
  rw [processHand_fire, hp, hy]
  simp [velocity_threshold, Bool.and_eq_true, Bool.not_eq_true', and_assoc]

/-- Witness for C1: a release with the middle fingertip moving by 0.09 fires. -/
theorem C1_velocity_gated_snap_witness :
    (processHand exStatePinched exHandRelease).1 = true :=
  (C1_velocity_gated_snap exStatePinched exHandRelease true 0 rfl rfl).mpr
    ⟨rfl, by with_unfolding_all rfl,
      of_decide_eq_true (by with_unfolding_all rfl)⟩

/-- C3: the pinch detector is true exactly when the squared 3-D distance
between thumb tip (landmark 4) and middle fingertip (landmark 12) is strictly
below 0.004; exactly at the threshold it is false; and it is monotonic in
that distance. -/
theorem C3_pinch_detector :
    (∀ h : HandObs,
      (isPinchingObs h = true ↔ distSq (h.landmarks 4) (h.landmarks 12) < (0.004 : ℚ))) ∧
    pinchOfDistSq (0.004 : ℚ) = false ∧
    (∀ d₁ d₂ : ℚ, d₁ ≤ d₂ → pinchOfDistSq d₂ = true → pinchOfDistSq d₁ = true) := by
  refine ⟨fun h => ?_, by with_unfolding_all rfl, fun d₁ d₂ hle h₂ => ?_⟩
  · simp [isPinchingObs, pinchOfDistSq, threshold_sq]
  · simp only [pinchOfDistSq, decide_eq_true_eq] at h₂ ⊢
    exact lt_of_le_of_lt hle h₂

/-- Witness for C3: a squared distance of 0.002 is at most 0.003, and 0.003 is
pinching, hence 0.002 is pinching. -/
theorem C3_pinch_detector_witness : pinchOfDistSq (1/500 : ℚ) = true :=
  C3_pinch_detector.2.2 (1/500) (3/1000) (by norm_num)
    (by with_unfolding_all rfl)

/-- C4: a frame with zero observed hands produces no payload for the sink and
leaves the persistent per-hand state exactly as it was. -/
theorem C4_empty_frame (st : State) : processFrame st [] = (none, st) := rfl

/-- C2: the gesture classifier counts a non-thumb finger (tip/MCP index pairs
(8,5), (12,9), (16,13), (20,17)) as folded exactly when the squared distance
from the wrist (landmark 0) to the tip is strictly less than to the MCP joint,
and returns Fist when at least 3 are folded, Open when 0 are folded, and
Neutral when exactly 1 or 2 are folded. -/
theorem C2_gesture_classifier (lms : Landmarks) :
    foldedCount lms =
      List.countP (fun p =>
        decide (distSq (lms p.1) (lms 0) < distSq (lms p.2) (lms 0)))
        [((8 : Fin 21), (5 : Fin 21)), (12, 9), (16, 13), (20, 17)] ∧
    (get_gesture lms = "Fist" ↔ 3 ≤ foldedCount lms) ∧
    (get_gesture lms = "Open" ↔ foldedCount lms = 0) ∧
    (get_gesture lms = "Neutral" ↔ (foldedCount lms = 1 ∨ foldedCount lms = 2)) := by
  have hle : foldedCount lms ≤ 4 := List.countP_le_length _
  refine ⟨rfl, ?_, ?_, ?_⟩ <;> unfold get_gesture <;>
    split_ifs with h1 h2 <;> simp <;> omega

/-- C6: the first frame ever processed for a label never fires a snap: after
any sequence of frames in which the label was never observed, starting from
the process-start state, a hand with that label cannot fire. -/
theorem C6_first_frame_no_snap (frames : List (List HandObs)) (l : String)
    (hl : ∀ f ∈ frames, ∀ o ∈ f, o.label ≠ l) (h : HandObs) (hlab : h.label = l) :
    (processHand (runFrames initState frames) h).1 = false := by
  have hpres : (runFrames initState frames).pinch_state l = initState.pinch_state l :=
    (runFrames_preserves l frames initState hl).1
  apply processHand_fire_false
  rw [hlab, hpres]
  unfold initState
  dsimp only
  split <;> rfl

/-- Witness for C6: with no prior frames, a hand labelled "Left" does not fire
from the process-start state. -/
theorem C6_first_frame_no_snap_witness :
    (processHand (runFrames initState []) exHandRelease).1 = false :=
  C6_first_frame_no_snap [] "Left" (by simp) exHandRelease rfl

/-- C7: under the edge-triggered snap policy, the pinch sequence
[false, true, true, false] fires exactly once, on the second frame; the
sequence [true, true, true] starting already pinching never fires. -/
theorem C7_edge_triggered :
    edgeRun false [false, true, true, false] = [false, true, false, false] ∧
    edgeRun true [true, true, true] = [false, false, false] := by decide

/-- C5: when at least one hand is observed, the emitted payload's snap flag is
the logical OR over all observed hands of that hand's individual snap result. -/
theorem C5_frame_snap_or (st : State) (hands : List HandObs) (hne : hands ≠ []) :
    ∃ p : Payload, (processFrame st hands).1 = some p ∧
      p.snap = (firesList st hands).any id := by
  cases hands with
  | nil => exact absurd rfl hne
  | cons h rest =>
    exact ⟨⟨(loopHands st (h :: rest)).1, (loopHands st (h :: rest)).2.1⟩,
      rfl, loopHands_snap st (h :: rest)⟩

/-- Witness for C5: a two-hand frame where the Left hand fires and the Right
hand does not; the payload carries the OR of the two results. -/
theorem C5_frame_snap_or_witness :
    ∃ p : Payload,
      (processFrame exStatePinched [exHandRelease, exHandRight]).1 = some p ∧
      p.snap = (firesList exStatePinched [exHandRelease, exHandRight]).any id :=
  C5_frame_snap_or exStatePinched [exHandRelease, exHandRight]
    (List.cons_ne_nil _ _)

/-- C8: a hand whose label has no recorded state is handled without error and
behaves exactly as if that label had lazily been initialized to the
process-start defaults (pinch flag false, previous y 0.0); afterwards the
label's state is recorded. -/
theorem C8_unseen_label (st : State) (h : HandObs)
    (hp : st.pinch_state h.label = none) (_hy : st.prev_middle_y h.label = none) :
    processHand st h = processHand (withDefaults st h.label) h ∧
      ((processHand st h).2).pinch_state h.label = some (isPinchingObs h) ∧
      ((processHand st h).2).prev_middle_y h.label = some (middleY h) := by
  refine ⟨?_, ?_, ?_⟩
  · refine Prod.ext ?_ ?_
    · rw [processHand_fire, processHand_fire, hp]
      have hd : (withDefaults st h.label).pinch_state h.label = some false := by
        simp [withDefaults]
      rw [hd]
      simp
    · apply State.ext <;> funext l2 <;>
        simp only [processHand_pinch_state, processHand_prev_middle_y] <;>
        by_cases hl : l2 = h.label <;> simp [hl, withDefaults]
  · rw [processHand_pinch_state]; simp
  · rw [processHand_prev_middle_y]; simp

/-- Witness for C8: a hand labelled "Left" processed against the empty state
behaves like the default-initialized state and records its state. -/
theorem C8_unseen_label_witness :
    processHand exStateEmpty exHandRelease =
        processHand (withDefaults exStateEmpty "Left") exHandRelease ∧
      ((processHand exStateEmpty exHandRelease).2).pinch_state "Left" =
        some (isPinchingObs exHandRelease) ∧
      ((processHand exStateEmpty exHandRelease).2).prev_middle_y "Left" =
        some (middleY exHandRelease) :=
  C8_unseen_label exStateEmpty exHandRelease rfl rfl

/-- C9: the folded count, and hence the gesture classification, is invariant
under any transformation of the landmarks that preserves squared Euclidean
distances, in particular under every rigid rotation applied uniformly to all
21 points. -/
theorem C9_rotation_invariance (R : Landmark → Landmark)
    (hR : ∀ p q, distSq (R p) (R q) = distSq p q) (lms : Landmarks) :
    foldedCount (fun i => R (lms i)) = foldedCount lms ∧
      get_gesture (fun i => R (lms i)) = get_gesture lms := by
  have hfc : foldedCount (fun i => R (lms i)) = foldedCount lms := by
    unfold foldedCount
    simp only [hR]
  exact ⟨hfc, by unfold get_gesture; rw [hfc]⟩

/-- Witness for C9: a quarter turn of the x-y plane leaves the folded count
and the gesture of a concrete hand unchanged. -/
theorem C9_rotation_invariance_witness :
    foldedCount (fun i => exRot (exHandRelease.landmarks i)) =
        foldedCount exHandRelease.landmarks ∧
      get_gesture (fun i => exRot (exHandRelease.landmarks i)) =
        get_gesture exHandRelease.landmarks :=
  C9_rotation_invariance exRot
    (by intro p q; simp only [exRot, distSq]; ring) exHandRelease.landmarks

/-- C10: a snap never fires on two consecutive observed frames for a label:
after a fire, the stored pinch flag is false, so the next observation of that
label (with any interleaved observations of other labels) cannot fire. -/
theorem C10_no_consecutive_fire (st : State) (h : HandObs)
    (hfire : (processHand st h).1 = true) :
    ((processHand st h).2).pinch_state h.label = some false ∧
      ∀ (obs : List HandObs), (∀ o ∈ obs, o.label ≠ h.label) →
        ∀ h2 : HandObs, h2.label = h.label →
          (processHand (runHands (processHand st h).2 obs) h2).1 = false := by
  have hnp : isPinchingObs h = false := by
    rw [processHand_fire, Bool.and_eq_true, Bool.and_eq_true] at hfire
    simpa using hfire.1.2
  constructor
  · rw [processHand_pinch_state]
    simp [hnp]
  · intro obs hobs h2 hl2
    have hpr := (runHands_preserves h.label obs (processHand st h).2 hobs).1
    apply processHand_fire_false
    rw [hl2, hpr, processHand_pinch_state]
    simp [hnp]

/-- Witness for C10: after the Left hand fires, re-observing the same hand
immediately (no interleaved observations) does not fire. -/
theorem C10_no_consecutive_fire_witness :
    (processHand (runHands (processHand exStatePinched exHandRelease).2 [])
      exHandRelease).1 = false :=
  (C10_no_consecutive_fire exStatePinched exHandRelease
      (by with_unfolding_all rfl)).2 [] (by simp) exHandRelease rfl

end MasterHand
